import Mathlib

/-!
Verification of the fifth-generation Asetek cooler driver
(`liquidctl/driver/asetek.py`) against its specification.

The driver's observable behaviour is shallowly embedded: every transport
interaction (control transfers, bulk writes and reads, persisted lighting
state updates, log records) is recorded as an event in a trace, and every
public operation is a pure function from its inputs — plus boolean oracles
for the outcomes of the fallible transport calls — to a trace together with
an `Except` result mirroring Python's raised exceptions.
-/

namespace Asetek

/-- Severity of a log record (`LOGGER.debug` / `LOGGER.info` / `LOGGER.warning`). -/
inductive LogLevel
  | debug
  | info
  | warning
deriving DecidableEq, Repr

/-- Observable events of the driver, in the order they happen.

`ctrl v` is `self.device.ctrl_transfer(_USBXPRESS, _USBXPRESS_REQUEST, v)`;
`write d` is a call of `AsetekDriver._write(d)` (the command-frame emission);
`devWrite d` is the underlying `self.device.write(...)`, skipped in dry-run
mode; `devRead` is `self.device.read(...)`; `dispose` is
`usb.util.dispose_resources`; `save d` is `data.to_yaml(filename=...)`
persisting the lighting frame; `log lvl` is a `LOGGER` record. -/
inductive Ev
  | ctrl (value : Nat)
  | write (data : List Int)
  | devWrite (data : List Int)
  | devRead
  | dispose
  | save (data : List Int)
  | log (lvl : LogLevel)
  | superConnect
  | superDisconnect
deriving DecidableEq, Repr

/-- Python exceptions raised by the driver or its collaborators. -/
inductive PyErr
  | usbError
  | keyError
  | valueError
  | notImplementedError
  | indexError
  | invalidProfile
  | profileTooLarge
deriving DecidableEq, Repr

/-- `_USBXPRESS_FLUSH_BUFFERS` control value. -/
def USBXPRESS_FLUSH_BUFFERS : Nat := 0x01

/-- `_USBXPRESS_CLEAR_TO_SEND` control value (used by `_open`). -/
def USBXPRESS_CLEAR_TO_SEND : Nat := 0x02

/-- `_USBXPRESS_NOT_CLEAR_TO_SEND` control value (used by `_close`). -/
def USBXPRESS_NOT_CLEAR_TO_SEND : Nat := 0x04

/-- `_FIXED_SPEED_CHANNELS`: channel name to (message type, min duty, max duty). -/
def FIXED_SPEED_CHANNELS : List (String × Int × Int × Int) :=
  [("fan", (0x12, 30, 100)), ("pump", (0x13, 30, 100))]

/-- `_VARIABLE_SPEED_CHANNELS`: channel name to (message type, min duty, max duty). -/
def VARIABLE_SPEED_CHANNELS : List (String × Int × Int × Int) :=
  [("fan", (0x11, 30, 100))]

/-- `_MAX_PROFILE_POINTS`. -/
def MAX_PROFILE_POINTS : Nat := 6

/-- `_CRITICAL_TEMPERATURE`. -/
def CRITICAL_TEMPERATURE : Int := 60

/-- Events of `AsetekDriver._open`: a debug log then the clear-to-send
control transfer. -/
def open_evs : List Ev :=
  [Ev.log .debug, Ev.ctrl USBXPRESS_CLEAR_TO_SEND]

/-- Events of `AsetekDriver._close`: a debug log then the not-clear-to-send
control transfer. -/
def close_evs : List Ev :=
  [Ev.log .debug, Ev.ctrl USBXPRESS_NOT_CLEAR_TO_SEND]

/-- Events of `AsetekDriver._begin_transaction`: a debug log then the
flush-buffers control transfer. -/
def begin_evs : List Ev :=
  [Ev.log .debug, Ev.ctrl USBXPRESS_FLUSH_BUFFERS]

/-- Events of `AsetekDriver._write(data)`: a debug log, the call itself, and
— unless in dry-run mode — the transport-level bulk write. -/
def write_evs (dryRun : Bool) (data : List Int) : List Ev :=
  [Ev.log .debug, Ev.write data] ++ if dryRun then [] else [Ev.devWrite data]

/-- `AsetekDriver._end_transaction_and_read`: a bulk read (whose outcome the
oracle `readOk` decides), then on success a debug log and the disposal of
transport resources, returning the raw frame `resp`. -/
def end_transaction_and_read (readOk : Bool) (resp : List Nat) :
    List Ev × Except PyErr (List Nat) :=
  if readOk then ([Ev.devRead, Ev.log .debug, Ev.dispose], .ok resp)
  else ([Ev.devRead], .error .usbError)

/-- The per-channel clamp pass of `AsetekDriver._prepare_profile`: each duty
below `min_duty` is raised to it, each duty above `max_duty` lowered to it,
temperatures untouched. -/
def clamp_pass (opt : List (Int × Int)) (min_duty max_duty : Int) :
    List (Int × Int) :=
  opt.map fun p =>
    if p.2 < min_duty then (p.1, min_duty)
    else if p.2 > max_duty then (p.1, max_duty)
    else p

/-- `AsetekDriver.connect`: first `super().connect()`, then `self._open()`
inside a `try`; on a `usb.core.USBError` a warning and a debug record are
logged, `self._close()` runs, and `self._open()` is attempted once more,
whose failure propagates.  The oracle `openOk n` decides whether the `n`-th
open control transfer of the call succeeds; the remaining control transfers
are modelled as succeeding. -/
def connect (openOk : Nat → Bool) : List Ev × Except PyErr Unit :=
  let t1 := Ev.superConnect :: open_evs
  if openOk 0 then (t1, .ok ())
  else
    let t2 := t1 ++ [Ev.log .warning, Ev.log .debug] ++ close_evs ++ open_evs
    if openOk 1 then (t2, .ok ()) else (t2, .error .usbError)

/-- `AsetekDriver.disconnect`: `self._close()` (not guarded by any
`try`/`except`, so a transport error propagates), then
`super().disconnect()`.  The oracle `closeOk` decides whether the close
control transfer succeeds. -/
def disconnect (closeOk : Bool) : List Ev × Except PyErr Unit :=
  if closeOk then (close_evs ++ [Ev.superDisconnect], .ok ())
  else (close_evs, .error .usbError)

/-- `AsetekDriver._send_fixed_speed(channel, speed)`: looks the channel up
in `_FIXED_SPEED_CHANNELS` (a missing key raises `KeyError`), clips the
speed into the channel's `[min, max]` bound, logs the applied duty at info
level, and writes the two-byte frame `[mtype, speed]`. -/
def send_fixed_speed (dryRun : Bool) (channel : String) (speed : Int) :
    List Ev × Except PyErr Unit :=
  match List.lookup channel FIXED_SPEED_CHANNELS with
  | none => ([], .error .keyError)
  | some (mtype, smin, smax) =>
    let s := if speed < smin then smin else if speed > smax then smax else speed
    (Ev.log .info :: write_evs dryRun [mtype, s], .ok ())

/-- `AsetekDriver.set_fixed_speed(channel, speed)`: for the pseudo channel
`sync`, begins a transaction, sends the fixed-speed command to `pump` and
`fan`, and reads — a read failure propagates (no `try`).  For the real
channels it begins a transaction, sends the command, and reads inside a
`try`: a `usb.core.USBError` is logged (warning, then debug) and swallowed.
An unknown channel raises `KeyError` from the `elif` dictionary lookup. -/
def set_fixed_speed (dryRun readOk : Bool) (resp : List Nat)
    (channel : String) (speed : Int) : List Ev × Except PyErr Unit :=
  if channel = "sync" then
    let (e1, _) := send_fixed_speed dryRun "pump" speed
    let (e2, _) := send_fixed_speed dryRun "fan" speed
    let (e3, r3) := end_transaction_and_read readOk resp
    (begin_evs ++ e1 ++ e2 ++ e3, r3.map fun _ => ())
  else
    match List.lookup channel FIXED_SPEED_CHANNELS with
    | none => ([], .error .keyError)
    | some _ =>
      let (e1, _) := send_fixed_speed dryRun channel speed
      match end_transaction_and_read readOk resp with
      | (e3, .ok _) => (begin_evs ++ e1 ++ e3, .ok ())
      | (e3, .error _) =>
        (begin_evs ++ e1 ++ e3 ++ [Ev.log .warning, Ev.log .debug], .ok ())

/-- A value in a status report: a numeric measurement or the firmware
version string. -/
inductive SVal
  | num (q : ℚ)
  | str (s : String)
deriving DecidableEq, Repr

/-- The firmware-version string
`'{}.{}.{}.{}'.format(*tuple(msg[0x17:0x1b]))`. -/
def firmware_format (a b c d : Nat) : String := s!"{a}.{b}.{c}.{d}"

/-- The decoding step of `AsetekDriver.get_status`.  The firmware version is
formatted first, from the four response bytes at offsets 0x17–0x1a — the
Python `format` call raises `IndexError` when the slice `msg[0x17:0x1b]`
holds fewer than four bytes, i.e. when the frame is shorter than 27 bytes —
then the report lists liquid temperature (`msg[10] + msg[14] / 10`), fan
speed (`msg[0] << 8 | msg[1]`), pump speed (`msg[8] << 8 | msg[9]`) and the
firmware version, each access raising `IndexError` when out of range
(`none` here). -/
def decode_status (msg : List Nat) :
    Option (List (String × SVal × String)) := do
  let a : ℕ ← msg[23]?
  let b : ℕ ← msg[24]?
  let c : ℕ ← msg[25]?
  let d : ℕ ← msg[26]?
  let m10 : ℕ ← msg[10]?
  let m14 : ℕ ← msg[14]?
  let m0 : ℕ ← msg[0]?
  let m1 : ℕ ← msg[1]?
  let m8 : ℕ ← msg[8]?
  let m9 : ℕ ← msg[9]?
  pure [("Liquid temperature", SVal.num ((m10 : ℚ) + (m14 : ℚ) / 10), "°C"),
        ("Fan speed", SVal.num (((m0 <<< 8 ||| m1 : Nat) : ℚ)), "rpm"),
        ("Pump speed", SVal.num (((m8 <<< 8 ||| m9 : Nat) : ℚ)), "rpm"),
        ("Firmware version", SVal.str (firmware_format a b c d), "")]

/-- `AsetekDriver.get_status`: begins a transaction, issues the dummy
command — `_send_dummy_command` calls `_write` on the lighting frame loaded
from the persistent store (`BoxList.from_yaml(filename=self.data_file)`),
the parameter `stored` — ends the transaction by reading the raw frame, and
decodes it into the report. -/
def get_status (stored : List Int) (dryRun readOk : Bool) (resp : List Nat) :
    List Ev × Except PyErr (List (String × SVal × String)) :=
  (begin_evs ++ write_evs dryRun stored ++ (end_transaction_and_read readOk resp).1,
   match (end_transaction_and_read readOk resp).2 with
   | .error e => .error e
   | .ok msg =>
     match decode_status msg with
     | none => .error .indexError
     | some rep => .ok rep)

/-- A frame exercising the documented status fields: fan bytes
`[0x0b, 0xb8]`, pump bytes `[0x03, 0xe8]`, liquid temperature bytes 33
and 5, firmware bytes 1, 2, 3, 4. -/
def sample_frame : List Nat :=
  [0x0b, 0xb8, 0, 0, 0, 0, 0, 0, 0x03, 0xe8, 33, 0, 0, 0, 5, 0,
   0, 0, 0, 0, 0, 0, 0, 1, 2, 3, 4, 0, 0, 0, 0, 0]

/-- Insert a (temperature, duty) point into a list sorted by temperature. -/
def insertByTemp (p : Int × Int) : List (Int × Int) → List (Int × Int)
  | [] => [p]
  | q :: rest => if p.1 ≤ q.1 then p :: q :: rest else q :: insertByTemp p rest

/-- Sort a profile by temperature ascending (insertion sort). -/
def sortByTemp (l : List (Int × Int)) : List (Int × Int) :=
  l.foldr insertByTemp []

/-- Modelled from the spec: `liquidctl.util.normalize_profile` is not under
`src/` — only its caller `AsetekDriver._prepare_profile` is.  Following the
spec, it fails with `InvalidProfile` when the input is empty or contains a
negative temperature or duty; otherwise it clamps temperatures at the
critical ceiling, keeps the last duty for each duplicated temperature,
sorts by temperature ascending, and appends a synthetic terminal point
`(critical, 100)` when no point sits at the critical temperature. -/
def normalize_profile (profile : List (Int × Int)) (critical : Int) :
    Except PyErr (List (Int × Int)) :=
  if profile.isEmpty then .error .invalidProfile
  else if profile.any (fun p => p.1 < 0 || p.2 < 0) then .error .invalidProfile
  else
    let clamped := profile.map fun p => (min p.1 critical, p.2)
    let dedup := clamped.foldl
      (fun acc p => acc.filter (fun q => q.1 ≠ p.1) ++ [p]) []
    let sorted := sortByTemp dedup
    if sorted.any (fun p => p.1 = critical) then .ok sorted
    else .ok (sorted ++ [(critical, 100)])

/-- Modelled from the spec: `liquidctl.util.autofill_profile` is not under
`src/` — only its caller `AsetekDriver._prepare_profile` is.  Following the
spec, a profile with more than `maxPoints` entries fails with
`ProfileTooLarge`; otherwise the profile is extended to exactly `maxPoints`
entries by replicating its highest point. -/
def autofill_profile (norm : List (Int × Int)) (maxPoints : Nat) :
    Except PyErr (List (Int × Int)) :=
  match norm.getLast? with
  | none => .error .invalidProfile
  | some last =>
    if maxPoints < norm.length then .error .profileTooLarge
    else .ok (norm ++ List.replicate (maxPoints - norm.length) last)

/-- `AsetekDriver._prepare_profile`: normalize against the critical
temperature, autofill to `_MAX_PROFILE_POINTS` entries, then run the
per-channel clamp pass. -/
def prepare_profile (profile : List (Int × Int)) (min_duty max_duty : Int) :
    Except PyErr (List (Int × Int)) :=
  match normalize_profile profile CRITICAL_TEMPERATURE with
  | .error e => .error e
  | .ok norm =>
    match autofill_profile norm MAX_PROFILE_POINTS with
    | .error e => .error e
    | .ok opt => .ok (clamp_pass opt min_duty max_duty)

/-- `AsetekDriver.set_speed_profile(channel, profile)`: looks the channel up
in `_VARIABLE_SPEED_CHANNELS` (a missing key raises `KeyError`), prepares
the profile, logs one info record per point, begins a transaction, writes
`[mtype, 0] ++ temps ++ duties`, and reads.  An empty prepared profile
would make `zip(*opt_profile)` raise `ValueError` before the transaction
(unreachable through `_prepare_profile`). -/
def set_speed_profile (dryRun readOk : Bool) (resp : List Nat)
    (channel : String) (profile : List (Int × Int)) :
    List Ev × Except PyErr Unit :=
  match List.lookup channel VARIABLE_SPEED_CHANNELS with
  | none => ([], .error .keyError)
  | some (mtype, dmin, dmax) =>
    match prepare_profile profile dmin dmax with
    | .error e => ([], .error e)
    | .ok opt =>
      let ie := opt.map fun _ => Ev.log .info
      match opt with
      | [] => (ie, .error .valueError)
      | _ :: _ =>
        let temps := opt.map Prod.fst
        let duties := opt.map Prod.snd
        let (re, rr) := end_transaction_and_read readOk resp
        (ie ++ begin_evs ++ write_evs dryRun ([mtype, 0] ++ temps ++ duties) ++ re,
         rr.map fun _ => ())

/-- The frames passed to `_write` in a trace, in order. -/
def writes (tr : List Ev) : List (List Int) :=
  tr.filterMap fun e =>
    match e with
    | Ev.write d => some d
    | _ => none

/-- The lighting modes accepted by `set_color`. -/
def color_modes : List String := ["fixed", "alternating", "blinking", "off"]

/-- The named lighting speeds accepted by `set_color`. -/
def speed_names : List (String × Int) :=
  [("fastest", 1), ("faster", 2), ("normal", 3), ("slower", 4), ("slowest", 5)]

/-- The `speed` argument of `set_color`: either an integer (or a string
that `int()` parses, modelled as the integer itself) or a non-numeric
string (for which `int()` raises `ValueError`). -/
inductive SpeedArg
  | int (n : Int)
  | str (s : String)
deriving DecidableEq, Repr

/-- The speed-coercion prologue of `set_color`: an integer outside
`[1, 255]` is replaced by 1 with a warning; a string not among the named
levels is replaced by 1 with a warning; a named level maps to its value. -/
def parse_speed : SpeedArg → Int × List Ev
  | .int n => if n < 1 || n > 255 then (1, [Ev.log .warning]) else (n, [])
  | .str s =>
    match List.lookup s speed_names with
    | none => (1, [Ev.log .warning])
    | some v => (v, [])

/-- `AsetekDriver.set_color(channel, mode, colors, speed)`: coerces the
speed, warns for channels other than `logo`, raises `NotImplementedError`
for an unknown mode, then resolves the two colors — mode `off` forces both
to black; otherwise `color1, *color2 = colors` raises `ValueError` on an
empty list, a third and further colors are dropped with a warning, and a
missing second color defaults to black — then begins a transaction, builds
the 19-byte lighting frame, persists it to the data file, writes it, and
reads. -/
def set_color (dryRun readOk : Bool) (resp : List Nat) (channel mode : String)
    (colors : List (List Int)) (speed : SpeedArg) :
    List Ev × Except PyErr Unit :=
  let (spd, se) := parse_speed speed
  let ce := if channel = "logo" then [] else [Ev.log .warning]
  if mode ∈ color_modes then
    match (if mode = "off" then some ([0, 0, 0], [0, 0, 0], ([] : List Ev))
           else
             match colors with
             | [] => none
             | c1 :: rest =>
               some (c1,
                 (match rest with
                  | [] => [0, 0, 0]
                  | c2 :: _ => c2),
                 if 1 < rest.length then [Ev.log .warning] else [])) with
    | none => (se ++ ce, .error .valueError)
    | some (color1, color2, we) =>
      let data : List Int :=
        [0x10] ++ color1 ++ color2 ++
          [0xff, 0x00, 0x00, 0x37, spd, spd,
           (if mode = "off" then 0 else 1),
           (if mode = "alternating" then 1 else 0),
           (if mode = "blinking" then 1 else 0),
           0x01, 0x00, 0x01]
      let (re, rr) := end_transaction_and_read readOk resp
      (se ++ ce ++ we ++ begin_evs ++ [Ev.save data] ++
         write_evs dryRun data ++ re,
       rr.map fun _ => ())
  else (se ++ ce, .error .notImplementedError)

/-- C3: for every channel bound with `min_duty ≤ max_duty` (true of every
channel table entry) and every input sequence, the clamp pass of
`_prepare_profile` preserves the length, leaves every temperature unchanged,
and leaves every duty inside `[min_duty, max_duty]`; being a total function,
it never fails. -/
theorem clamp_pass_bounds (l : List (Int × Int)) (dmin dmax : Int)
    (h : dmin ≤ dmax) :
    (clamp_pass l dmin dmax).length = l.length ∧
    ∀ i, i < l.length →
      ((clamp_pass l dmin dmax).getD i (0, 0)).1 = (l.getD i (0, 0)).1 ∧
      dmin ≤ ((clamp_pass l dmin dmax).getD i (0, 0)).2 ∧
      ((clamp_pass l dmin dmax).getD i (0, 0)).2 ≤ dmax := by
  refine ⟨List.length_map _ _, ?_⟩
  intro i hi
  have hm : (clamp_pass l dmin dmax).getD i (0, 0) =
      (fun p : Int × Int =>
        if p.2 < dmin then (p.1, dmin)
        else if p.2 > dmax then (p.1, dmax)
        else p) (l.getD i (0, 0)) := by
    simp only [clamp_pass, List.getD_eq_getElem?_getD, List.getElem?_map,
      List.getElem?_eq_getElem hi]
    rfl
  rw [hm]
  set p := l.getD i (0, 0) with hp
  by_cases h1 : p.2 < dmin
  · simp [h1]; omega
  · by_cases h2 : p.2 > dmax
    · simp [h1, h2]; omega
    · simp [h1, h2]; omega

/-- Witness for C3 at the fan channel bounds and a concrete profile. -/
theorem clamp_pass_bounds_witness :
    (30 : Int) ≤ 100 ∧
    ((clamp_pass [((20 : Int), (10 : Int)), (30, 150), (40, 50)] 30 100).length =
        ([((20 : Int), (10 : Int)), (30, 150), (40, 50)] : List (Int × Int)).length ∧
      ∀ i, i < ([((20 : Int), (10 : Int)), (30, 150), (40, 50)] : List (Int × Int)).length →
        ((clamp_pass [((20 : Int), (10 : Int)), (30, 150), (40, 50)] 30 100).getD i (0, 0)).1 =
          (([((20 : Int), (10 : Int)), (30, 150), (40, 50)] : List (Int × Int)).getD i (0, 0)).1 ∧
        (30 : Int) ≤ ((clamp_pass [((20 : Int), (10 : Int)), (30, 150), (40, 50)] 30 100).getD i (0, 0)).2 ∧
        ((clamp_pass [((20 : Int), (10 : Int)), (30, 150), (40, 50)] 30 100).getD i (0, 0)).2 ≤ 100) :=
  ⟨by decide, clamp_pass_bounds [((20 : Int), (10 : Int)), (30, 150), (40, 50)] 30 100 (by decide)⟩

/-- C2: `connect` attempts `open`; if and only if the first `open` fails
with a transport error, it performs `close` exactly once and then retries
`open` exactly once, a failure of the retried `open` surfacing to the
caller; no further close or retry is attempted. -/
theorem connect_retry_policy (openOk : Nat → Bool) :
    (openOk 0 = true →
      (connect openOk).1 =
        [Ev.superConnect, Ev.log .debug, Ev.ctrl USBXPRESS_CLEAR_TO_SEND] ∧
      (connect openOk).1.count (Ev.ctrl USBXPRESS_NOT_CLEAR_TO_SEND) = 0 ∧
      (connect openOk).1.count (Ev.ctrl USBXPRESS_CLEAR_TO_SEND) = 1 ∧
      (connect openOk).2 = .ok ()) ∧
    (openOk 0 = false →
      (connect openOk).1 =
        [Ev.superConnect, Ev.log .debug, Ev.ctrl USBXPRESS_CLEAR_TO_SEND,
         Ev.log .warning, Ev.log .debug,
         Ev.log .debug, Ev.ctrl USBXPRESS_NOT_CLEAR_TO_SEND,
         Ev.log .debug, Ev.ctrl USBXPRESS_CLEAR_TO_SEND] ∧
      (connect openOk).1.count (Ev.ctrl USBXPRESS_NOT_CLEAR_TO_SEND) = 1 ∧
      (connect openOk).1.count (Ev.ctrl USBXPRESS_CLEAR_TO_SEND) = 2 ∧
      (openOk 1 = true → (connect openOk).2 = .ok ()) ∧
      (openOk 1 = false → (connect openOk).2 = .error .usbError)) := by
  refine ⟨fun h0 => ?_, fun h0 => ?_⟩
  · have hc : connect openOk = (Ev.superConnect :: open_evs, .ok ()) := by
      simp [connect, h0]
    rw [hc]
    exact ⟨rfl, by decide, by decide, rfl⟩
  · cases h1 : openOk 1
    · have hc : connect openOk =
          (Ev.superConnect :: open_evs ++ [Ev.log .warning, Ev.log .debug] ++
            close_evs ++ open_evs, .error .usbError) := by
        simp [connect, h0, h1]
      rw [hc]
      refine ⟨rfl, by decide, by decide, fun h => absurd h (by decide), fun h => rfl⟩
    · have hc : connect openOk =
          (Ev.superConnect :: open_evs ++ [Ev.log .warning, Ev.log .debug] ++
            close_evs ++ open_evs, .ok ()) := by
        simp [connect, h0, h1]
      rw [hc]
      refine ⟨rfl, by decide, by decide, fun h => rfl, fun h => absurd h (by decide)⟩

/-- Witness for C2: a transport whose first open fails and whose second
open succeeds — `connect` closes once, retries once and succeeds. -/
theorem connect_retry_policy_witness :
    ((fun n => n == 1) 0 = false) ∧
    (connect (fun n => n == 1)).1 =
      [Ev.superConnect, Ev.log .debug, Ev.ctrl USBXPRESS_CLEAR_TO_SEND,
       Ev.log .warning, Ev.log .debug,
       Ev.log .debug, Ev.ctrl USBXPRESS_NOT_CLEAR_TO_SEND,
       Ev.log .debug, Ev.ctrl USBXPRESS_CLEAR_TO_SEND] ∧
    (connect (fun n => n == 1)).1.count (Ev.ctrl USBXPRESS_NOT_CLEAR_TO_SEND) = 1 ∧
    (connect (fun n => n == 1)).2 = .ok () :=
  ⟨rfl, ((connect_retry_policy (fun n => n == 1)).2 rfl).1,
   ((connect_retry_policy (fun n => n == 1)).2 rfl).2.1,
   ((connect_retry_policy (fun n => n == 1)).2 rfl).2.2.2.1 rfl⟩

/-- C5 counterexample: `set_fixed_speed('fan', 10)` — an out-of-range speed
that the driver clamps to the channel minimum — emits no warning-level
event anywhere in the call (only info and debug records), refuting the
claimed warning-level observable event on clamping. -/
theorem set_fixed_speed_no_warning_cex :
    Ev.log .warning ∉ (set_fixed_speed false true [] "fan" 10).1 := by
  decide

/-- C5 (amended): for every speed and every fixed-speed channel, the
fixed-speed command frame is exactly `[message_type, clamped_speed]` with
the speed clipped into the channel's [30, 100] bound, and out-of-range
speeds cause no failure; the accompanying observable event is an info-level
log of the applied duty — no warning-level event is emitted.  In particular
channel `fan` at speed 10 yields duty 30 and at speed 150 yields duty
100. -/
theorem send_fixed_speed_clamps (speed : Int) (dryRun : Bool) :
    ((send_fixed_speed dryRun "fan" speed).1 =
        Ev.log .info :: write_evs dryRun
          [0x12, if speed < 30 then 30 else if speed > 100 then 100 else speed] ∧
      (send_fixed_speed dryRun "fan" speed).2 = .ok () ∧
      Ev.log .warning ∉ (send_fixed_speed dryRun "fan" speed).1) ∧
    ((send_fixed_speed dryRun "pump" speed).1 =
        Ev.log .info :: write_evs dryRun
          [0x13, if speed < 30 then 30 else if speed > 100 then 100 else speed] ∧
      (send_fixed_speed dryRun "pump" speed).2 = .ok () ∧
      Ev.log .warning ∉ (send_fixed_speed dryRun "pump" speed).1) ∧
    (30 ≤ (if speed < 30 then 30 else if speed > 100 then (100 : Int) else speed) ∧
      (if speed < 30 then 30 else if speed > 100 then (100 : Int) else speed) ≤ 100) ∧
    Ev.write [0x12, 30] ∈ (send_fixed_speed dryRun "fan" 10).1 ∧
    Ev.write [0x12, 100] ∈ (send_fixed_speed dryRun "fan" 150).1 := by
  have hfan : List.lookup "fan" FIXED_SPEED_CHANNELS =
      some (0x12, 30, 100) := rfl
  have hpump : List.lookup "pump" FIXED_SPEED_CHANNELS =
      some (0x13, 30, 100) := rfl
  refine ⟨⟨?_, ?_, ?_⟩, ⟨?_, ?_, ?_⟩, ⟨?_, ?_⟩, ?_, ?_⟩ <;>
    first
      | (simp only [send_fixed_speed, hfan, hpump, write_evs] <;>
          cases dryRun <;> simp)
      | (split_ifs <;> omega)

/-- Witness for the amended C5: channel `fan` at speed 10 writes duty 30
and at speed 150 writes duty 100. -/
theorem send_fixed_speed_clamps_witness :
    (send_fixed_speed false "fan" 10).1 =
      Ev.log .info :: write_evs false [0x12, 30] ∧
    Ev.write [0x12, 30] ∈ (send_fixed_speed false "fan" 10).1 ∧
    Ev.write [0x12, 100] ∈ (send_fixed_speed false "fan" 150).1 :=
  ⟨(send_fixed_speed_clamps 10 false).1.1,
   (send_fixed_speed_clamps 10 false).2.2.2.1,
   (send_fixed_speed_clamps 10 false).2.2.2.2⟩

/-- C6 counterexample: with a failing transport, `disconnect` propagates
the close error, and `set_fixed_speed` on the `sync` pseudo channel
propagates the post-write read error — neither of these "best-effort"
paths swallows the transport error. -/
theorem best_effort_paths_raise_cex :
    (disconnect false).2 = .error .usbError ∧
    (set_fixed_speed false false [] "sync" 50).2 = .error .usbError :=
  ⟨rfl, rfl⟩

/-- C6 (amended): in `set_fixed_speed` on the individual channels `fan` and
`pump`, a transport error in the post-write read is logged (a warning and a
debug record) and swallowed, the call still succeeding; but in
`disconnect`'s close and in the `sync` branch of `set_fixed_speed` the
transport error propagates to the caller. -/
theorem set_fixed_speed_swallows_read_error (dryRun : Bool) (resp : List Nat)
    (speed : Int) :
    ((set_fixed_speed dryRun false resp "fan" speed).2 = .ok () ∧
      Ev.log .warning ∈ (set_fixed_speed dryRun false resp "fan" speed).1) ∧
    ((set_fixed_speed dryRun false resp "pump" speed).2 = .ok () ∧
      Ev.log .warning ∈ (set_fixed_speed dryRun false resp "pump" speed).1) ∧
    (disconnect false).2 = .error .usbError ∧
    (set_fixed_speed dryRun false resp "sync" speed).2 = .error .usbError := by
  have hfan : List.lookup "fan" FIXED_SPEED_CHANNELS =
      some (0x12, 30, 100) := rfl
  have hpump : List.lookup "pump" FIXED_SPEED_CHANNELS =
      some (0x13, 30, 100) := rfl
  refine ⟨⟨?_, ?_⟩, ⟨?_, ?_⟩, rfl, ?_⟩ <;>
    simp [set_fixed_speed, hfan, hpump, send_fixed_speed,
      end_transaction_and_read, write_evs, begin_evs, Except.map]

/-- Helper: on any frame of at least 27 bytes, the decoding step succeeds
and produces the documented field values. -/
theorem decode_status_spec (msg : List Nat) (h : 27 ≤ msg.length) :
    decode_status msg = some
      [("Liquid temperature",
         SVal.num ((msg.getD 10 0 : ℚ) + (msg.getD 14 0 : ℚ) / 10), "°C"),
       ("Fan speed",
         SVal.num (((msg.getD 0 0 <<< 8 ||| msg.getD 1 0 : Nat) : ℚ)), "rpm"),
       ("Pump speed",
         SVal.num (((msg.getD 8 0 <<< 8 ||| msg.getD 9 0 : Nat) : ℚ)), "rpm"),
       ("Firmware version",
         SVal.str (firmware_format (msg.getD 23 0) (msg.getD 24 0)
           (msg.getD 25 0) (msg.getD 26 0)), "")] := by
  have gd : ∀ i, i < msg.length → msg[i]? = some (msg.getD i 0) := by
    intro i hi
    rw [List.getD_eq_getElem?_getD, List.getElem?_eq_getElem hi]
    rfl
  unfold decode_status
  rw [gd 23 (by omega), gd 24 (by omega), gd 25 (by omega),
    gd 26 (by omega), gd 10 (by omega), gd 14 (by omega), gd 0 (by omega),
    gd 1 (by omega), gd 8 (by omega), gd 9 (by omega)]
  rfl

/-- C1: for every 32-byte response frame, `get_status` returns a report in
which the liquid temperature is `frame[10] + frame[14] / 10` in °C, the fan
speed is `frame[0] << 8 | frame[1]` rpm, the pump speed is
`frame[8] << 8 | frame[9]` rpm, and the firmware version is the four bytes
`frame[0x17..0x1a]` joined with dots. -/
theorem get_status_decodes_frame (stored : List Int) (dryRun : Bool)
    (resp : List Nat) (h : resp.length = 32) :
    (get_status stored dryRun true resp).2 = .ok
      [("Liquid temperature",
         SVal.num ((resp.getD 10 0 : ℚ) + (resp.getD 14 0 : ℚ) / 10), "°C"),
       ("Fan speed",
         SVal.num (((resp.getD 0 0 <<< 8 ||| resp.getD 1 0 : Nat) : ℚ)), "rpm"),
       ("Pump speed",
         SVal.num (((resp.getD 8 0 <<< 8 ||| resp.getD 9 0 : Nat) : ℚ)), "rpm"),
       ("Firmware version",
         SVal.str (firmware_format (resp.getD 23 0) (resp.getD 24 0)
           (resp.getD 25 0) (resp.getD 26 0)), "")] := by
  have hd := decode_status_spec resp (by omega)
  simp only [get_status, end_transaction_and_read, if_true, hd]

/-- Witness for C1: on `sample_frame`, whose fan bytes are `[0x0b, 0xb8]`
and pump bytes `[0x03, 0xe8]`, the report shows 3000 rpm fan speed,
1000 rpm pump speed, 33.5 °C liquid temperature and firmware `1.2.3.4`. -/
theorem get_status_decodes_frame_witness :
    sample_frame.length = 32 ∧
    (get_status [] false true sample_frame).2 = .ok
      [("Liquid temperature", SVal.num ((335 : ℚ) / 10), "°C"),
       ("Fan speed", SVal.num 3000, "rpm"),
       ("Pump speed", SVal.num 1000, "rpm"),
       ("Firmware version", SVal.str "1.2.3.4", "")] :=
  ⟨rfl, by
    rw [get_status_decodes_frame [] false sample_frame rfl]
    have h10 : sample_frame.getD 10 0 = 33 := rfl
    have h14 : sample_frame.getD 14 0 = 5 := rfl
    have hf : sample_frame.getD 0 0 <<< 8 ||| sample_frame.getD 1 0 = 3000 := by
      decide
    have hp : sample_frame.getD 8 0 <<< 8 ||| sample_frame.getD 9 0 = 1000 := by
      decide
    have hw : firmware_format (sample_frame.getD 23 0) (sample_frame.getD 24 0)
        (sample_frame.getD 25 0) (sample_frame.getD 26 0) = "1.2.3.4" := rfl
    rw [h10, h14, hf, hp, hw]
    simp only [Except.ok.injEq]
    norm_num⟩

/-- C8: the status-decoding step fails (Python raises from the firmware
`format` call, the spec's `TruncatedFrame`) exactly on frames shorter than
27 bytes, and produces a report on every frame of at least 27 bytes. -/
theorem decode_status_truncation (msg : List Nat) :
    (msg.length < 27 → decode_status msg = none) ∧
    (27 ≤ msg.length → (decode_status msg).isSome = true) := by
  constructor
  · intro h
    have h26 : msg[26]? = none := List.getElem?_eq_none (by omega)
    unfold decode_status
    rw [h26]
    rcases msg[23]? with _ | a <;> rcases msg[24]? with _ | b <;>
      rcases msg[25]? with _ | c <;> rfl
  · intro h
    rw [decode_status_spec msg h]
    rfl

/-- Witness for C8: the empty frame is rejected, a 27-byte frame is
decoded. -/
theorem decode_status_truncation_witness :
    decode_status [] = none ∧
    (decode_status (List.replicate 27 0)).isSome = true :=
  ⟨(decode_status_truncation []).1 (by decide),
   (decode_status_truncation (List.replicate 27 0)).2 (by decide)⟩

/-- C7: every `get_status` call performs, in this order, the
begin-transaction control transfer, the `_write` call whose bytes are
exactly the persisted lighting frame loaded from the store, and only then
the read: any `devRead` in the trace is preceded by the flush-buffers
control transfer and by that write. -/
theorem get_status_write_before_read (stored : List Int)
    (dryRun readOk : Bool) (resp : List Nat) :
    (get_status stored dryRun readOk resp).1 =
      begin_evs ++ write_evs dryRun stored ++
        (end_transaction_and_read readOk resp).1 ∧
    ∀ i : Nat, ((get_status stored dryRun readOk resp).1)[i]? = some Ev.devRead →
      ∃ j k : Nat, j < k ∧ k < i ∧
        ((get_status stored dryRun readOk resp).1)[j]? =
          some (Ev.ctrl USBXPRESS_FLUSH_BUFFERS) ∧
        ((get_status stored dryRun readOk resp).1)[k]? =
          some (Ev.write stored) := by
  cases dryRun <;> cases readOk <;> refine ⟨rfl, ?_⟩ <;>
    · intro i h
      rcases i with _ | _ | _ | _ | _ | _ | _ | _ | i <;>
        first
          | exact ⟨1, 3, by omega, by omega, rfl, rfl⟩
          | simp [get_status, begin_evs, write_evs, end_transaction_and_read,
              USBXPRESS_FLUSH_BUFFERS] at h

/-- Witness for C7: a concrete `get_status` call whose read (position 4 of
the trace) is preceded by the flush-buffers transfer and the replay write
of the stored lighting frame. -/
theorem get_status_write_before_read_witness :
    ((get_status [16, 0] true true [1]).1)[4]? = some Ev.devRead ∧
    ∃ j k : Nat, j < k ∧ k < 4 ∧
      ((get_status [16, 0] true true [1]).1)[j]? =
        some (Ev.ctrl USBXPRESS_FLUSH_BUFFERS) ∧
      ((get_status [16, 0] true true [1]).1)[k]? =
        some (Ev.write [16, 0]) :=
  ⟨rfl, (get_status_write_before_read [16, 0] true true [1]).2 4 rfl⟩

theorem mem_insertByTemp (p x : Int × Int) (l : List (Int × Int))
    (h : x ∈ insertByTemp p l) : x = p ∨ x ∈ l := by
  induction l with
  | nil => simpa [insertByTemp] using h
  | cons q rest ih =>
    by_cases hle : p.1 ≤ q.1
    · simp only [insertByTemp, if_pos hle, List.mem_cons] at h ⊢
      exact h
    · simp only [insertByTemp, if_neg hle, List.mem_cons] at h
      rcases h with h | h
      · simp [h]
      · rcases ih h with h | h
        · exact Or.inl h
        · exact Or.inr (List.mem_cons_of_mem _ h)

theorem mem_sortByTemp (x : Int × Int) (l : List (Int × Int))
    (h : x ∈ sortByTemp l) : x ∈ l := by
  induction l with
  | nil => simp [sortByTemp] at h
  | cons q rest ih =>
    rw [sortByTemp, List.foldr_cons] at h
    rcases mem_insertByTemp q x _ h with h | h
    · simp [h]
    · exact List.mem_cons_of_mem _ (ih h)

theorem mem_dedup_foldl (l : List (Int × Int)) :
    ∀ (acc : List (Int × Int)) (x : Int × Int),
      x ∈ l.foldl (fun acc p => acc.filter (fun q => q.1 ≠ p.1) ++ [p]) acc →
      x ∈ acc ∨ x ∈ l := by
  induction l with
  | nil =>
    intro acc x h
    rw [List.foldl_nil] at h
    exact Or.inl h
  | cons p rest ih =>
    intro acc x h
    rw [List.foldl_cons] at h
    rcases ih _ x h with h | h
    · rcases List.mem_append.1 h with h | h
      · exact Or.inl (List.mem_of_mem_filter h)
      · simp only [List.mem_singleton] at h
        simp [h]
    · simp [h]

theorem normalize_profile_mem (profile norm : List (Int × Int))
    (h : normalize_profile profile CRITICAL_TEMPERATURE = .ok norm) :
    ∀ x ∈ norm, 0 ≤ x.1 ∧ x.1 ≤ 60 ∧ 0 ≤ x.2 := by
  intro x hx
  unfold normalize_profile at h
  by_cases he : profile.isEmpty
  · simp [he] at h
  · by_cases hn : profile.any (fun p => p.1 < 0 || p.2 < 0)
    · simp [he, hn] at h
    · simp only [he, hn, Bool.false_eq_true, if_false] at h
      have hpos : ∀ p ∈ profile, 0 ≤ p.1 ∧ 0 ≤ p.2 := by
        intro p hp
        have h1 : ¬((p.1 < 0 || p.2 < 0) = true) :=
          fun hc => hn (List.any_eq_true.2 ⟨p, hp, hc⟩)
        simp only [Bool.or_eq_true, decide_eq_true_eq, not_or] at h1
        omega
      have key : ∀ y ∈ norm,
          y ∈ profile.map (fun p => (min p.1 CRITICAL_TEMPERATURE, p.2)) ∨
          y = (CRITICAL_TEMPERATURE, 100) := by
        intro y hy
        split at h <;> injection h with h <;> subst h
        · have h2 := mem_sortByTemp y _ hy
          rcases mem_dedup_foldl _ [] y h2 with h3 | h3
          · simp at h3
          · exact Or.inl h3
        · rcases List.mem_append.1 hy with h1 | h1
          · have h2 := mem_sortByTemp y _ h1
            rcases mem_dedup_foldl _ [] y h2 with h3 | h3
            · simp at h3
            · exact Or.inl h3
          · right; simpa using h1
      rcases key x hx with h1 | h1
      · rcases List.mem_map.1 h1 with ⟨p, hp, rfl⟩
        obtain ⟨hp1, hp2⟩ := hpos p hp
        simp only [CRITICAL_TEMPERATURE]
        refine ⟨?_, ?_, hp2⟩ <;> omega
      · subst h1
        simp [CRITICAL_TEMPERATURE]

theorem autofill_profile_spec (norm opt : List (Int × Int))
    (h : autofill_profile norm MAX_PROFILE_POINTS = .ok opt) :
    opt.length = 6 ∧ ∀ x ∈ opt, x ∈ norm := by
  unfold autofill_profile at h
  rcases hl : norm.getLast? with _ | last <;> rw [hl] at h
  · cases h
  · by_cases hlen : MAX_PROFILE_POINTS < norm.length
    · simp [hlen] at h
    · simp only [hlen, if_false] at h
      injection h with h
      subst h
      have hlen6 : norm.length ≤ 6 := by
        simpa [MAX_PROFILE_POINTS] using hlen
      constructor
      · simp only [List.length_append, List.length_replicate, MAX_PROFILE_POINTS]
        omega
      · intro x hx
        rcases List.mem_append.1 hx with hx | hx
        · exact hx
        · have hx2 : x = last := List.eq_of_mem_replicate hx
          subst hx2
          exact List.mem_of_getLast?_eq_some hl

theorem mem_clamp_pass (l : List (Int × Int)) (a b : Int) (hab : a ≤ b)
    (x : Int × Int) (hx : x ∈ clamp_pass l a b) :
    ∃ y ∈ l, x.1 = y.1 ∧ a ≤ x.2 ∧ x.2 ≤ b := by
  rcases List.mem_map.1 hx with ⟨y, hy, rfl⟩
  refine ⟨y, hy, ?_, ?_, ?_⟩ <;> dsimp only <;> split_ifs <;>
    first | rfl | omega

theorem prepare_profile_spec (profile opt : List (Int × Int))
    (h : prepare_profile profile 30 100 = .ok opt) :
    opt.length = 6 ∧ ∀ x ∈ opt, 0 ≤ x.1 ∧ x.1 ≤ 60 ∧ 30 ≤ x.2 ∧ x.2 ≤ 100 := by
  unfold prepare_profile at h
  rcases hn : normalize_profile profile CRITICAL_TEMPERATURE with e | norm <;>
    rw [hn] at h <;> dsimp only at h
  · cases h
  · rcases ha : autofill_profile norm MAX_PROFILE_POINTS with e | auto <;>
      rw [ha] at h <;> dsimp only at h
    · cases h
    · injection h with h
      subst h
      obtain ⟨hal, ham⟩ := autofill_profile_spec norm auto ha
      constructor
      · rw [clamp_pass, List.length_map, hal]
      · intro x hx
        obtain ⟨y, hy, hxy, hd1, hd2⟩ := mem_clamp_pass auto 30 100 (by omega) x hx
        obtain ⟨ht1, ht2, _⟩ := normalize_profile_mem profile norm hn y (ham y hy)
        exact ⟨by omega, by omega, hd1, hd2⟩

theorem set_speed_profile_single_frame (profile : List (Int × Int))
    (dryRun readOk : Bool) (resp : List Nat) :
    (∀ opt, prepare_profile profile 30 100 = .ok opt → opt.length = 6) ∧
    ((∀ opt, prepare_profile profile 30 100 ≠ .ok opt) →
      writes (set_speed_profile dryRun readOk resp "fan" profile).1 = []) ∧
    (∀ opt, prepare_profile profile 30 100 = .ok opt →
      writes (set_speed_profile dryRun readOk resp "fan" profile).1 =
        [[0x11, 0] ++ opt.map Prod.fst ++ opt.map Prod.snd] ∧
      ([0x11, 0] ++ opt.map Prod.fst ++ opt.map Prod.snd : List Int).length = 14 ∧
      ∀ b ∈ ([0x11, 0] ++ opt.map Prod.fst ++ opt.map Prod.snd : List Int),
        0 ≤ b ∧ b < 256) := by
  have hlk : List.lookup "fan" VARIABLE_SPEED_CHANNELS =
      some (0x11, 30, 100) := rfl
  refine ⟨fun opt hp => (prepare_profile_spec profile opt hp).1, ?_, ?_⟩
  · intro hne
    rcases hp : prepare_profile profile 30 100 with e | opt
    · simp only [set_speed_profile, hlk, hp, writes, List.filterMap_nil]
    · exact absurd hp (hne opt)
  · intro opt hp
    obtain ⟨hlen, hbnd⟩ := prepare_profile_spec profile opt hp
    rcases opt with _ | ⟨p, rest⟩
    · simp at hlen
    · refine ⟨?_, ?_, ?_⟩
      · cases dryRun <;> cases readOk <;>
          simp [set_speed_profile, hlk, hp, writes, write_evs, begin_evs,
            end_transaction_and_read, List.filterMap_append]
      · simp only [List.length_append, List.length_map]
        have : (p :: rest).length = 6 := hlen
        simp at this
        simp [this]
      · intro b hb
        rcases List.mem_append.1 hb with hb | hb
        · rcases List.mem_append.1 hb with hb | hb
          · simp only [List.mem_cons, List.not_mem_nil, or_false] at hb
            rcases hb with rfl | rfl <;> omega
          · rcases List.mem_map.1 hb with ⟨y, hy, rfl⟩
            have := hbnd y hy
            omega
        · rcases List.mem_map.1 hb with ⟨y, hy, rfl⟩
          have := hbnd y hy
          omega

theorem set_speed_profile_single_frame_witness :
    prepare_profile [((30 : Int), (50 : Int))] 30 100 =
      .ok [(30, 50), (60, 100), (60, 100), (60, 100), (60, 100), (60, 100)] ∧
    writes (set_speed_profile false true [] "fan"
        [((30 : Int), (50 : Int))]).1 =
      [[0x11, 0] ++
        ([((30 : Int), (50 : Int)), (60, 100), (60, 100), (60, 100), (60, 100),
          (60, 100)]).map Prod.fst ++
        ([((30 : Int), (50 : Int)), (60, 100), (60, 100), (60, 100), (60, 100),
          (60, 100)]).map Prod.snd] :=
  have hp : prepare_profile [((30 : Int), (50 : Int))] 30 100 =
      .ok [(30, 50), (60, 100), (60, 100), (60, 100), (60, 100), (60, 100)] := rfl
  ⟨hp, ((set_speed_profile_single_frame [((30 : Int), (50 : Int))] false true
      []).2.2 _ hp).1⟩

theorem set_color_empty_colors_cex :
    (set_color false true [] "logo" "fixed" [] (SpeedArg.int 3)).2 =
      .error .valueError := rfl

theorem set_color_colors_arity (dryRun : Bool) (resp : List Nat)
    (mode : String) (colors : List (List Int)) (speed : SpeedArg)
    (hmode : mode ∈ color_modes) :
    (mode = "off" →
      (set_color dryRun true resp "logo" mode colors speed).2 = .ok ()) ∧
    (mode ≠ "off" → colors = [] →
      (set_color dryRun true resp "logo" mode colors speed).2 =
        .error .valueError) ∧
    (mode ≠ "off" → colors ≠ [] →
      (set_color dryRun true resp "logo" mode colors speed).2 = .ok ()) ∧
    (mode ≠ "off" → 2 < colors.length →
      Ev.log .warning ∈
        (set_color dryRun true resp "logo" mode colors speed).1) := by
  fin_cases hmode
  · refine ⟨fun hoff => absurd hoff (by decide), fun _ hnil => ?_,
      fun _ hnnil => ?_, fun _ hlen => ?_⟩
    · subst hnil
      simp [set_color, color_modes]
    · rcases colors with _ | ⟨c1, rest⟩
      · exact absurd rfl hnnil
      · simp [set_color, color_modes, end_transaction_and_read, Except.map]
    · rcases colors with _ | ⟨c1, rest⟩
      · simp at hlen
      · have h2 : 1 < rest.length := by
          simp only [List.length_cons] at hlen
          omega
        simp [set_color, color_modes, h2, end_transaction_and_read, begin_evs,
          write_evs]
  · refine ⟨fun hoff => absurd hoff (by decide), fun _ hnil => ?_,
      fun _ hnnil => ?_, fun _ hlen => ?_⟩
    · subst hnil
      simp [set_color, color_modes]
    · rcases colors with _ | ⟨c1, rest⟩
      · exact absurd rfl hnnil
      · simp [set_color, color_modes, end_transaction_and_read, Except.map]
    · rcases colors with _ | ⟨c1, rest⟩
      · simp at hlen
      · have h2 : 1 < rest.length := by
          simp only [List.length_cons] at hlen
          omega
        simp [set_color, color_modes, h2, end_transaction_and_read, begin_evs,
          write_evs]
  · refine ⟨fun hoff => absurd hoff (by decide), fun _ hnil => ?_,
      fun _ hnnil => ?_, fun _ hlen => ?_⟩
    · subst hnil
      simp [set_color, color_modes]
    · rcases colors with _ | ⟨c1, rest⟩
      · exact absurd rfl hnnil
      · simp [set_color, color_modes, end_transaction_and_read, Except.map]
    · rcases colors with _ | ⟨c1, rest⟩
      · simp at hlen
      · have h2 : 1 < rest.length := by
          simp only [List.length_cons] at hlen
          omega
        simp [set_color, color_modes, h2, end_transaction_and_read, begin_evs,
          write_evs]
  · refine ⟨fun _ => ?_, fun hne => absurd rfl hne, fun hne => absurd rfl hne,
      fun hne => absurd rfl hne⟩
    simp [set_color, color_modes, end_transaction_and_read, Except.map]

theorem set_color_colors_arity_witness :
    ("fixed" : String) ∈ color_modes ∧
    (set_color false true [] "logo" "fixed" [[255, 0, 0]]
      (SpeedArg.int 3)).2 = .ok () :=
  ⟨by decide,
   (set_color_colors_arity false [] "fixed" [[255, 0, 0]] (SpeedArg.int 3)
      (by decide)).2.2.1 (by decide) (by decide)⟩

theorem parse_speed_evs (speed : SpeedArg) :
    (parse_speed speed).2 = [] ∨ (parse_speed speed).2 = [Ev.log .warning] := by
  rcases speed with n | s
  · dsimp only [parse_speed]
    split_ifs <;> simp
  · dsimp only [parse_speed]
    rcases List.lookup s speed_names with _ | v <;> simp

theorem benign_no_transport (l : List Ev)
    (h : ∀ e ∈ l, (∃ lvl, e = Ev.log lvl) ∨ (∃ v, e = Ev.ctrl v)) :
    (∀ d, Ev.write d ∉ l ∧ Ev.devWrite d ∉ l) ∧ Ev.devRead ∉ l := by
  refine ⟨fun d => ⟨fun hm => ?_, fun hm => ?_⟩, fun hm => ?_⟩ <;>
    rcases h _ hm with ⟨lvl, he⟩ | ⟨v, he⟩ <;> cases he

theorem set_color_saves_before_write (dryRun readOk : Bool) (resp : List Nat)
    (channel mode : String) (colors : List (List Int)) (speed : SpeedArg)
    (hmode : mode ∈ color_modes) (hcol : mode = "off" ∨ colors ≠ [])
    (hrgb : ∀ c ∈ colors, c.length = 3) :
    ∃ A B data,
      (set_color dryRun readOk resp channel mode colors speed).1 =
        A ++ Ev.save data :: B ∧
      data.length = 19 ∧
      Ev.write data ∈ B ∧
      (∀ d, Ev.write d ∉ A ∧ Ev.devWrite d ∉ A) ∧ Ev.devRead ∉ A := by
  have hce : (if channel = "logo" then ([] : List Ev) else [Ev.log .warning]) = [] ∨
      (if channel = "logo" then ([] : List Ev) else [Ev.log .warning]) =
        [Ev.log .warning] := by
    split_ifs <;> simp
  by_cases hoff : mode = "off"
  · subst hoff
    set data : List Int := [0x10] ++ [0, 0, 0] ++ [0, 0, 0] ++
      [0xff, 0x00, 0x00, 0x37, (parse_speed speed).1, (parse_speed speed).1,
       0, 0, 0, 0x01, 0x00, 0x01] with hdata
    refine ⟨(parse_speed speed).2 ++
        (if channel = "logo" then [] else [Ev.log .warning]) ++ begin_evs,
      write_evs dryRun data ++ (end_transaction_and_read readOk resp).1,
      data, ?_, ?_, ?_, ?_⟩
    · simp [set_color, color_modes, hdata, List.append_assoc]
    · simp [hdata]
    · simp [write_evs]
    · refine benign_no_transport _ ?_
      intro e he
      rcases List.mem_append.1 he with he | he
      · rcases List.mem_append.1 he with he | he
        · rcases parse_speed_evs speed with h | h <;> rw [h] at he <;> simp at he
          exact Or.inl ⟨_, he⟩
        · rcases hce with h | h <;> rw [h] at he <;> simp at he
          exact Or.inl ⟨_, he⟩
      · simp only [begin_evs, List.mem_cons, List.not_mem_nil, or_false] at he
        rcases he with he | he
        · exact Or.inl ⟨_, he⟩
        · exact Or.inr ⟨_, he⟩
  · rcases colors with _ | ⟨c1, rest⟩
    · rcases hcol with h | h
      · exact absurd h hoff
      · exact absurd rfl h
    · have hc1 : c1.length = 3 := hrgb c1 (by simp)
      have hc2 : (match rest with
          | [] => ([0, 0, 0] : List Int)
          | c2 :: _ => c2).length = 3 := by
        rcases rest with _ | ⟨c2, rest2⟩
        · rfl
        · exact hrgb c2 (by simp)
      set data : List Int := [0x10] ++ c1 ++
        (match rest with
         | [] => ([0, 0, 0] : List Int)
         | c2 :: _ => c2) ++
        [0xff, 0x00, 0x00, 0x37, (parse_speed speed).1, (parse_speed speed).1,
         1, (if mode = "alternating" then 1 else 0),
         (if mode = "blinking" then 1 else 0), 0x01, 0x00, 0x01] with hdata
      refine ⟨(parse_speed speed).2 ++
          (if channel = "logo" then [] else [Ev.log .warning]) ++
          (if 1 < rest.length then [Ev.log .warning] else []) ++ begin_evs,
        write_evs dryRun data ++ (end_transaction_and_read readOk resp).1,
        data, ?_, ?_, ?_, ?_⟩
      · simp [set_color, hmode, hoff, hdata, List.append_assoc]
      · simp [hdata, hc1, hc2]
      · simp [write_evs]
      · refine benign_no_transport _ ?_
        intro e he
        rcases List.mem_append.1 he with he | he
        · rcases List.mem_append.1 he with he | he
          · rcases List.mem_append.1 he with he | he
            · rcases parse_speed_evs speed with h | h <;> rw [h] at he <;>
                simp at he
              exact Or.inl ⟨_, he⟩
            · rcases hce with h | h <;> rw [h] at he <;> simp at he
              exact Or.inl ⟨_, he⟩
          · split at he <;> simp at he
            exact Or.inl ⟨_, he⟩
        · simp only [begin_evs, List.mem_cons, List.not_mem_nil, or_false] at he
          rcases he with he | he
          · exact Or.inl ⟨_, he⟩
          · exact Or.inr ⟨_, he⟩

theorem set_color_saves_before_write_witness :
    ("alternating" : String) ∈ color_modes ∧
    (∀ c ∈ ([[1, 2, 3], [4, 5, 6], [7, 8, 9]] : List (List Int)),
      c.length = 3) ∧
    ∃ A B data,
      (set_color true false [] "led" "alternating"
          [[1, 2, 3], [4, 5, 6], [7, 8, 9]] (SpeedArg.str "zzz")).1 =
        A ++ Ev.save data :: B ∧
      data.length = 19 ∧
      Ev.write data ∈ B ∧
      (∀ d, Ev.write d ∉ A ∧ Ev.devWrite d ∉ A) ∧ Ev.devRead ∉ A :=
  ⟨by decide, by decide,
   set_color_saves_before_write true false [] "led" "alternating"
     [[1, 2, 3], [4, 5, 6], [7, 8, 9]] (SpeedArg.str "zzz") (by decide)
     (by decide) (by decide)⟩

end Asetek
